import Mathlib

/-!
Verification of the heteroribbon section-joining algorithm of
`src/sisl/geom/nanoribbon.py`.

The file shallowly embeds the module's data model and operations:

* `nanoribbon` (lines 19-85): only its input processing is embedded — the
  width validation/clamping and the kind dispatch, which decide all error
  behaviour of the builder; the honeycomb lattice assembly is an external
  collaborator (out of scope per the design document).
* `_nanoribbon_section.__post_init__` (lines 229-262): kind dispatch to
  the longitudinal/transversal axes, the `shift_quantum` override of
  `on_lone_atom`, and the `NameError` lurking in the unknown-kind branch.
* `_nanoribbon_section._align_check`, `_offset_from_center`,
  `_parse_shift`, `build_section`, `add_section`: embedded in full over a
  rational-coordinate geometry model.

Geometry collaborator: the `Geometry` container (tile, move, remove,
append, add_vacuum) lives outside the five source files, so its
operations are modelled from the spec ("supports tiling, rotation,
translation, atom removal, concatenation along an axis").  All unit cells
produced by `nanoribbon` are orthogonal (the source forces strict
orthogonality for zigzag and uses the orthogonal honeycomb cell for
armchair), so a cell is represented by its diagonal.  Coordinates are
rationals; the single irrational scalar of the source, the transverse
atom spacing `bond * 3**.5 / 2`, is kept as an explicit parameter
`sqrt3` because no verified property depends on its value.
-/

/-- The `on_lone_atom` policy of a section: `ignore`, `warn` or `raise`. -/
inductive Policy
  | ignore
  | warn
  | raise
deriving DecidableEq

/-- The alignment request of a section: bottom/top/center/auto (the code
also accepts the one-letter forms "b"/"t"/"c"/"a", merged here). -/
inductive Align
  | bottom
  | top
  | center
  | auto
deriving DecidableEq

/-- The two recognised ribbon kinds. -/
inductive Kind
  | armchair
  | zigzag
deriving DecidableEq

/-- `long_ax` of `__post_init__`: 0 for armchair, 1 for zigzag. -/
def Kind.long_ax : Kind → Nat
  | Kind.armchair => 0
  | Kind.zigzag => 1

/-- `trans_ax` of `__post_init__`: 1 for armchair, 0 for zigzag. -/
def Kind.trans_ax : Kind → Nat
  | Kind.armchair => 1
  | Kind.zigzag => 0

/-- Python exception classes that the claims distinguish. -/
inductive PyErr
  | valueError (msg : String)
  | nameError (name : String)
deriving DecidableEq

/-- A Python number argument: the `isinstance(width, Integral)` check of
`nanoribbon` is a type test, so an integral-valued float is still not
`Integral`.  `int` carries an integer, `float` a (rational) float. -/
inductive PyNum
  | int (n : Int)
  | float (q : ℚ)
deriving DecidableEq

/-- A point or cell diagonal in 3-space, rational coordinates. -/
structure Vec3 where
  x : ℚ
  y : ℚ
  z : ℚ
deriving DecidableEq

/-- Component along axis `i` (0 = x, 1 = y, 2 = z). -/
def Vec3.ax (v : Vec3) (i : Nat) : ℚ :=
  if i = 0 then v.x else if i = 1 then v.y else v.z

/-- Add `q` to the component along axis `i`. -/
def Vec3.addAx (v : Vec3) (i : Nat) (q : ℚ) : Vec3 :=
  if i = 0 then ⟨v.x + q, v.y, v.z⟩
  else if i = 1 then ⟨v.x, v.y + q, v.z⟩
  else ⟨v.x, v.y, v.z + q⟩

/-- Scale the component along axis `i` by `q`. -/
def Vec3.scaleAx (v : Vec3) (i : Nat) (q : ℚ) : Vec3 :=
  if i = 0 then ⟨v.x * q, v.y, v.z⟩
  else if i = 1 then ⟨v.x, v.y * q, v.z⟩
  else ⟨v.x, v.y, v.z * q⟩

/-- The vector with value `q` along axis `i` and 0 elsewhere. -/
def Vec3.unit (i : Nat) (q : ℚ) : Vec3 :=
  Vec3.addAx ⟨0, 0, 0⟩ i q

/-- Componentwise sum. -/
def Vec3.add (a b : Vec3) : Vec3 :=
  ⟨a.x + b.x, a.y + b.y, a.z + b.z⟩

/-- Modelled from the spec: the out-of-scope lattice/geometry container.
A geometry is an orthogonal unit cell (its diagonal) together with the
list of atom positions. -/
structure Geometry where
  cell : Vec3
  xyz : List Vec3
deriving DecidableEq

/-- Modelled from the spec: `Geometry.move` translates every atom. -/
def Geometry.move (g : Geometry) (v : Vec3) : Geometry :=
  ⟨g.cell, g.xyz.map (fun p => p.add v)⟩

/-- Modelled from the spec: `Geometry.tile n ax` repeats the cell `n`
times along axis `ax`, scaling the cell vector accordingly. -/
def Geometry.tile (g : Geometry) (n : Nat) (ax : Nat) : Geometry :=
  ⟨g.cell.scaleAx ax (n : ℚ),
   (List.range n).flatMap (fun k => g.xyz.map (fun p => p.addAx ax ((k : ℚ) * g.cell.ax ax)))⟩

/-- Modelled from the spec: `Geometry.remove` with an axis range
`(c, None)` removes every atom whose coordinate along `ax` lies beyond
`c`, keeping those at or below it. -/
def Geometry.removeFrom (g : Geometry) (ax : Nat) (c : ℚ) : Geometry :=
  ⟨g.cell, g.xyz.filter (fun p => p.ax ax ≤ c)⟩

/-- Modelled from the spec: `Geometry.add_vacuum amount ax` expands the
cell dimension along `ax` by `amount` without touching the atoms. -/
def Geometry.add_vacuum (g : Geometry) (amount : ℚ) (ax : Nat) : Geometry :=
  ⟨g.cell.addAx ax amount, g.xyz⟩

/-- Modelled from the spec: `Geometry.append other ax` concatenates
`other` after `g` along axis `ax` (atoms of `other` shifted by `g`'s cell
vector, cell vectors summed along `ax`). -/
def Geometry.append (g other : Geometry) (ax : Nat) : Geometry :=
  ⟨g.cell.addAx ax (other.cell.ax ax),
   g.xyz ++ other.xyz.map (fun p => p.addAx ax (g.cell.ax ax))⟩

/-- Wrap a point into the unit cell: `(fxyz % 1).dot(cell)` of
`_shift_unit_cell` for an orthogonal cell. -/
def Vec3.wrap (p : Vec3) (cell : Vec3) : Vec3 :=
  ⟨Int.fract (p.x / cell.x) * cell.x,
   Int.fract (p.y / cell.y) * cell.y,
   Int.fract (p.z / cell.z) * cell.z⟩

/-- `_nanoribbon_section._shift_unit_cell` (lines 273-281): move by half
the longitudinal cell vector, then wrap all atoms back into the cell. -/
def shift_unit_cell (long_ax : Nat) (g : Geometry) : Geometry :=
  let moved := g.move (Vec3.unit long_ax (g.cell.ax long_ax / 2))
  ⟨g.cell, moved.xyz.map (fun p => p.wrap g.cell)⟩

/-- Minimum of a coordinate list (`ndarray.min`); 0 on an empty list (a
modelling default — the source would fail on an empty array, and every
ribbon geometry is nonempty). -/
def listMin (l : List ℚ) : ℚ :=
  match l with
  | [] => 0
  | a :: t => t.foldl min a

/-- Maximum of a coordinate list (`ndarray.max`); 0 on an empty list. -/
def listMax (l : List ℚ) : ℚ :=
  match l with
  | [] => 0
  | a :: t => t.foldl max a

/-- Arithmetic mean of a coordinate list (`ndarray.mean`); 0 on empty. -/
def listMean (l : List ℚ) : ℚ :=
  (l.foldl (· + ·) 0) / (l.length : ℚ)

/-- `np.arange start stop step` for a positive integer step: the values
`start, start + step, ...` strictly below `stop`. -/
def arange (start stop step : Int) : List Int :=
  if 0 < step then
    (List.range ((stop - start + step - 1) / step).toNat).map
      (fun k => start + step * (k : Int))
  else []

/-- Insert into a sorted list (ascending). -/
def insertSorted (a : Int) : List Int → List Int
  | [] => [a]
  | b :: t => if a ≤ b then a :: b :: t else b :: insertSorted a t

/-- `np.sort`: ascending insertion sort (duplicates kept, as numpy keeps
them). -/
def sortInts (l : List Int) : List Int :=
  l.foldr insertSorted []

/-!  Error messages of the source, built as plain strings.  The
`_junction_error` helper prefixes every message with a sentence naming
the two sections in conflict (their dataclass reprs are elided here: no
claim depends on them). -/

/-- Space-separated numpy-style repr of an integer array, as interpolated
into the lone-atom messages. -/
def repr_int_list (l : List Int) : String :=
  "[" ++ String.intercalate " " (l.map (fun v => toString v)) ++ "]"

/-- Prefix added by `_nanoribbon_section._junction_error` (line 270). -/
def junction_msg (msg : String) : String :=
  "Error at junction between sections. " ++ msg

/-- Message of the wider-open-odd pre-check (lines 455-459). -/
def wider_open_msg : String :=
  "LONE ATOMS: Previous odd section, which has an open end, is wider than the incoming one. A wider odd section must always have a closed end. You can solve this by making the previous section one unit smaller or larger (L = L +- 1)."

/-- Message of the center-alignment parity error (line 317). -/
def center_parity_msg : String :=
  "Different parity sections can not be aligned by their centers"

/-- Message of the kind-mismatch check of `build_section` (line 367). -/
def kind_mismatch_msg : String :=
  "Ribbons must be of same type."

/-- Message of the bond-mismatch check of `build_section` (line 369). -/
def bond_mismatch_msg : String :=
  "Ribbons must have same bond length."

/-- Non-quantized invalid-shift message (lines 616-617). -/
def shift_set_msg (valid : List Int) (s : Int) : String :=
  "LONE ATOMS: Shift must be one of " ++ repr_int_list valid ++ " but "
    ++ toString s ++ " was provided."

/-- Quantized out-of-range message (lines 609-610): reports the valid
index range relative to the anchor. -/
def shift_range_msg (aligned : Nat) (n : Nat) (s : Int) : String :=
  "LONE ATOMS: Shift must be between " ++ toString (-(aligned : Int)) ++ " and "
    ++ toString ((n : Int) - (aligned : Int) - 1) ++ ", but " ++ toString s
    ++ " was provided."

/-- `str.lower` restricted to what the kind strings need: lower-case
every character (written out over the character list so that it reduces
in the kernel). -/
def pyLower (s : String) : String :=
  ⟨s.data.map Char.toLower⟩

/-- Width validation message of `nanoribbon` (line 44). -/
def nanoribbon_width_err : String :=
  "nanoribbon: width needs to be a postive integer!"

/-- Kind validation message of `nanoribbon` (line 77). -/
def nanoribbon_kind_err : String :=
  "nanoribbon: kind must be armchair or zigzag"

/-- `nanoribbon` input processing (lines 43-77): the width must be an
`Integral` instance (a type test, so any float fails, even an integral
one); an integral width is then clamped by `width = max(width, 1)` and
characterized as `n, m = width // 2, width % 2`; the kind string is
lower-cased and dispatched.  The returned tuple is the clamped width,
`n`, `m` and the canonical kind; the lattice assembly done with them
(honeycomb repetition, trimming, vacuum) is the out-of-scope geometry
collaborator and decides no error behaviour. -/
def nanoribbon (width : PyNum) (kind : String) : Except String (Int × Int × Int × String) :=
  match width with
  | PyNum.float _ => Except.error nanoribbon_width_err
  | PyNum.int wi =>
    let w := max wi 1
    let n := w / 2
    let m := w % 2
    let k := pyLower kind
    if k = "armchair" then Except.ok (w, n, m, k)
    else if k = "zigzag" then Except.ok (w, n, m, k)
    else Except.error nanoribbon_kind_err

/-- Local names of `_nanoribbon_section.__post_init__`: the method only
binds `self`; in particular no local named `kind` exists. -/
def post_init_local_names : List String := ["self"]

/-- Module-level names of `sisl/geom/nanoribbon.py` (imports plus
definitions), the global scope of any name lookup inside the module. -/
def module_global_names : List String :=
  ["dataclass", "field", "Integral", "np", "composite_geometry",
   "set_module", "geom", "Atom", "Geometry", "nanoribbon",
   "graphene_nanoribbon", "agnr", "zgnr", "_nanoribbon_section",
   "heteroribbon", "graphene_heteroribbon", "__all__"]

/-- Evaluating the f-string of line 235,
`f"Unknown kind={kind}, must be one of zigzag or armchair"`:
interpolating the bare name `kind` looks it up in the local then global
scope; the lookup fails (the attribute is `self.kind`), so building the
intended `ValueError` itself raises a `NameError`. -/
def unknown_kind_error : PyErr :=
  if "kind" ∈ post_init_local_names ∨ "kind" ∈ module_global_names then
    PyErr.valueError "Unknown kind, must be one of zigzag or armchair"
  else
    PyErr.nameError "kind"

/-- `_nanoribbon_section.__post_init__` (lines 229-240): dispatch the
kind string to the axes, overwrite `on_lone_atom` with `"raise"` when
`shift_quantum` is set, and initialise `_open_borders = [False, False]`.
The pristine `nanoribbon` geometry built afterwards (line 259) is
carried separately as the `geometry` argument of `build_section`. -/
def post_init (kind : String) (shift_quantum : Bool) (on_lone_atom : Policy) :
    Except PyErr (Kind × Policy × (Bool × Bool)) :=
  if kind = "armchair" then
    Except.ok (Kind.armchair, (if shift_quantum then Policy.raise else on_lone_atom), (false, false))
  else if kind = "zigzag" then
    Except.ok (Kind.zigzag, (if shift_quantum then Policy.raise else on_lone_atom), (false, false))
  else
    Except.error unknown_kind_error

/-- Modelled from the spec: `composite_geometry.Section.create_error_handler`
(referenced by `_junction_error`, defined in the `_composite` module that
is outside the provided sources).  The handler selected by the policy
either suppresses the message, records it as a non-fatal warning and
proceeds, or aborts the build with the message. -/
def junction_route (pol : Policy) (msg : String) : Except String (List String) :=
  match pol with
  | Policy.ignore => Except.ok []
  | Policy.warn => Except.ok [msg]
  | Policy.raise => Except.error msg

/-- The section parameters consumed by `build_section`/`_parse_shift`
(static dataclass fields after `__post_init__`). -/
structure SectionCfg where
  W : Int
  L : Int
  shift : Int
  align : Align
  bond : ℚ
  kind : Kind
  shift_quantum : Bool
  on_lone_atom : Policy
  invert_first : Bool
deriving DecidableEq

/-- The state of the previously placed section that the current one
depends on: width, kind, bond, its `_open_borders[1]` flag and its
placed coordinates `xyz`. -/
structure PrevPlaced where
  W : Int
  kind : Kind
  bond : ℚ
  open_top : Bool
  xyz : List Vec3
deriving DecidableEq

/-- `_nanoribbon_section._offset_from_center` (lines 342-352): number of
atoms hanging out when aligning on top/bottom instead of the center.
Python parses `- W_diff // 2` as `(-W_diff) // 2` (unary minus binds
tighter than floor division). -/
def offset_from_center (align : Align) (W prevW : Int) : Int :=
  let W_diff := W - prevW
  match align with
  | Align.top => (-W_diff) / 2
  | Align.bottom => W_diff / 2
  | _ => 0

/-- Lines 298-309 of `_align_check`: the resolution of the `auto`
alignment request.  Both widths odd (the source tests incoming odd and
difference even) resolves to center; an even previous section resolves
to its open edge; otherwise bottom.  Any other request passes through. -/
def resolve_auto (alignReq : Align) (W prevW : Int) (prevTopOpen : Bool) : Align :=
  if alignReq = Align.auto then
    if W % 2 = 1 ∧ (W - prevW) % 2 = 0 then Align.center
    else if prevW % 2 = 0 then (if prevTopOpen then Align.top else Align.bottom)
    else Align.bottom
  else alignReq

/-- `_nanoribbon_section._align_check` (lines 283-340).  Returns the
resolved alignment, the transverse offset to apply to the incoming
section and the border-match flag.  With no previous section it returns
the requested mode with zero offset and a true match.  The final
invalid-literal `ValueError` of line 339 is unreachable here because
`Align` already restricts the literals and `auto` is always resolved
when a previous section exists. -/
def align_check (W : Int) (alignReq : Align) (prev : Option PrevPlaced)
    (geom_xyz : List Vec3) (trans_ax : Nat) : Except String (Align × ℚ × Bool) :=
  match prev with
  | none => Except.ok (alignReq, 0, true)
  | some p =>
    let W_diff := W - p.W
    let align := resolve_auto alignReq W p.W p.open_top
    match align with
    | Align.center =>
      if W_diff % 2 = 1 then
        Except.error (junction_msg center_parity_msg)
      else
        Except.ok (Align.center,
          listMean (p.xyz.map (fun q => q.ax trans_ax))
            - listMean (geom_xyz.map (fun q => q.ax trans_ax)),
          (!p.open_top) = decide (W_diff % 4 = 0))
    | Align.top =>
      Except.ok (Align.top,
        listMax (p.xyz.map (fun q => q.ax trans_ax))
          - listMax (geom_xyz.map (fun q => q.ax trans_ax)),
        !p.open_top)
    | Align.bottom =>
      Except.ok (Align.bottom,
        listMin (p.xyz.map (fun q => q.ax trans_ax))
          - listMin (geom_xyz.map (fun q => q.ax trans_ax)),
        (decide (p.W % 2 = 1) = p.open_top) = decide (W % 2 = 0))
    | Align.auto => Except.error "Invalid value for align"

/-- Minimum of the absolute values of a list (`np.abs(...).min()`); 0 on
an empty list. -/
def minAbs : List Int → Nat
  | [] => 0
  | [a] => a.natAbs
  | a :: b :: t => min a.natAbs (minAbs (b :: t))

/-- `np.argmin(np.abs(l))`: index of the first element of minimal
absolute value; 0 on an empty list (numpy would raise there — the
callers guard the empty case explicitly). -/
def argminAbs : List Int → Nat
  | [] => 0
  | [_] => 0
  | a :: b :: t => if a.natAbs ≤ minAbs (b :: t) then 0 else argminAbs (b :: t) + 1

/-- Numpy integer-array indexing: nonnegative indices from the front,
negative indices wrap from the back, anything else is an `IndexError`. -/
def npIndex (l : List Int) (i : Int) : Except String Int :=
  if 0 ≤ i ∧ i < (l.length : Int) then Except.ok (l.getD i.toNat 0)
  else if -(l.length : Int) ≤ i ∧ i < 0 then Except.ok (l.getD ((l.length : Int) + i).toNat 0)
  else Except.error "index out of bounds"

/-- Lines 596-603 of `_parse_shift`: the anchor index of quantized
shifts.  If a literal 0 is a valid shift its (first) position is the
anchor; otherwise `n - 1 - np.argmin(np.abs(np.flip(valid)))`, the last
position of minimal absolute value, which in a sorted array prefers the
positive (upward) candidate on a tie. -/
def quantized_anchor (valid : List Int) : Nat :=
  if 0 ∈ valid then valid.indexOf 0
  else valid.length - 1 - argminAbs valid.reverse

/-- Lines 593-613 of `_parse_shift`: quantized resolution.  The
requested shift is an index offset from the anchor; an out-of-range
index is routed through the policy handler (always `raise` in practice,
since `shift_quantum` forces the policy), after which the array is
indexed.  An empty valid set makes the `np.argmin` call itself raise. -/
def quantized_resolve (pol : Policy) (valid : List Int) (shiftReq : Int) :
    Except String (List String × Int) :=
  if valid = [] then Except.error "attempt to get argmin of an empty sequence"
  else
    let n := valid.length
    let aligned := quantized_anchor valid
    let corrected := (aligned : Int) + shiftReq
    (if corrected < 0 ∨ (n : Int) ≤ corrected then
        junction_route pol (junction_msg (shift_range_msg aligned n shiftReq))
      else Except.ok []).bind
      (fun w => (npIndex valid corrected).map (fun v => (w, v)))

/-- Lines 614-617 of `_parse_shift`: non-quantized resolution.  A shift
outside the valid set is routed through the policy handler (listing the
valid set in the message); the requested shift is then returned as is. -/
def plain_resolve (pol : Policy) (valid : List Int) (shiftReq : Int) :
    Except String (List String × Int) :=
  (if shiftReq ∈ valid then Except.ok []
   else junction_route pol (junction_msg (shift_set_msg valid shiftReq))).map
    (fun w => (w, shiftReq))

/-- Lines 461-592 of `_parse_shift`: the sorted set of valid shifts at
the junction between the previous section (width `prevW`, top border
open iff `prevOpen`) and the incoming one (width `W`), for the resolved
alignment `al`.  Mirrors the source case by case; the `shift_pars`
dictionary of line 487 keeps the later (`open`) entry on a parity
collision, and the two limits always have opposite parities. -/
def sorted_valid_shifts (prevW : Int) (prevOpen : Bool) (W : Int) (al : Align) : List Int :=
  let W_diff := W - prevW
  let diff_mod := W_diff % 4
  let valid :=
    if diff_mod % 2 = 0 ∧ W % 2 = 1 then
      -- Both sections are odd.
      if W < prevW then
        let closed_lim := prevW / 2 + W / 2 - 2
        let open_lim := prevW / 2 - W / 2 - 1
        let par0 := if open_lim % 2 = 0 then open_lim else closed_lim
        let par1 := if open_lim % 2 = 1 then open_lim else closed_lim
        let base := sortInts (arange 0 (par0 + 1) 2 ++ arange 1 (par1 + 1) 2)
        let refl := ((base.map (fun v => -v)).reverse.dropLast) ++ base
        let shift_offset := offset_from_center al W prevW
        refl.map (fun v => v + shift_offset)
      else if prevW = W then [0]
      else
        let shift_lim :=
          if diff_mod = 2 ∧ prevOpen = true ∨ diff_mod = 0 ∧ prevOpen = false then
            ((W_diff / 2) / 2) * 2
          else if prevOpen then W_diff / 2 - 1
          else W_diff / 2 + (prevW / 2 - 1) * 2
        let shift_offset := offset_from_center al W prevW
        arange (-shift_lim + shift_offset) (shift_lim + shift_offset + 1) 2
    else
      -- There is at least one even section.
      let sp :=
        if diff_mod % 2 = 0 then
          if prevOpen then (([prevW - W] : List Int), [(prevW - W + 1, prevW - 1)])
          else (([0] : List Int), [(-W + 1, (-1 : Int))])
        else if W % 2 = 1 then
          if W < prevW then
            if prevOpen then (([prevW - W] : List Int), [(prevW - W, prevW - W + 1 + ((W - 2) / 2) * 2)])
            else (([0] : List Int), [(-1 - ((W - 2) / 2) * 2, (-1 : Int))])
          else
            if prevOpen then (([] : List Int), [((0 : Int), prevW - 2)])
            else (([] : List Int), [(-(W - 2), (-1 : Int))])
        else
          if prevOpen then (([0, prevW - W] : List Int), ([] : List (Int × Int)))
          else (([] : List Int), [((1 : Int), prevW - 2), (-(W - 2), prevW - W - 1)])
      let vs := sp.1 ++ sp.2.flatMap (fun pr => arange pr.1 (pr.2 + 1) 2)
      let shift_offset :=
        match al with
        | Align.top => W_diff
        | Align.center => -offset_from_center Align.bottom W prevW
        | _ => 0
      vs.map (fun v => v + shift_offset)
  sortInts valid

/-- `_nanoribbon_section._parse_shift` (lines 445-619).  With the
`ignore` policy the requested shift is returned unvalidated.  Otherwise
the wider-open-odd pre-check fails fatally (the source hardcodes the
`"raise"` severity there), the valid shifts are computed, and the
request is resolved in quantized or plain mode.  The result carries the
non-fatal warnings emitted along the way next to the resolved shift. -/
def parse_shift (pol : Policy) (quantum : Bool) (shiftReq : Int)
    (prevW : Int) (prevOpen : Bool) (W : Int) (al : Align) :
    Except String (List String × Int) :=
  if pol = Policy.ignore then Except.ok ([], shiftReq)
  else if prevW % 2 = 1 ∧ W < prevW ∧ prevOpen = true then
    Except.error (junction_msg wider_open_msg)
  else
    let valid := sorted_valid_shifts prevW prevOpen W al
    if quantum then quantized_resolve pol valid shiftReq
    else plain_resolve pol valid shiftReq

/-- Lines 355-392 of `build_section`: everything before the tiling.  For
a first section, `invert_first` optionally shifts the border and flips
`_open_borders[0]`.  Otherwise kind and bond must match the previous
section, the alignment and the shift are resolved, the unit cell is
border-shifted when `aligned_match == (shift % 2 == 1)` (flipping
`_open_borders[0]`), and the section is moved transversally by
`offset + shift * atom_shift` with `atom_shift = bond * sqrt3 / 2`.
Returns the moved geometry with the current `_open_borders[0]`. -/
def build_prev_part (sqrt3 : ℚ) (sec : SectionCfg) (geometry : Geometry)
    (ob0 : Bool) (prev : Option PrevPlaced) : Except String (Geometry × Bool) :=
  match prev with
  | none =>
    if sec.invert_first then
      Except.ok (shift_unit_cell sec.kind.long_ax geometry, !ob0)
    else Except.ok (geometry, ob0)
  | some p =>
    if sec.kind ≠ p.kind then Except.error (junction_msg kind_mismatch_msg)
    else if sec.bond ≠ p.bond then Except.error (junction_msg bond_mismatch_msg)
    else
      (align_check sec.W sec.align (some p) geometry.xyz sec.kind.trans_ax).bind
        (fun ali =>
          (parse_shift sec.on_lone_atom sec.shift_quantum sec.shift
              p.W p.open_top sec.W ali.1).map
            (fun ws =>
              let shift := ws.2
              let atom_shift := sec.bond * sqrt3 / 2
              let gb : Geometry × Bool :=
                if ali.2.2 = decide (shift % 2 = 1) then
                  (shift_unit_cell sec.kind.long_ax geometry, !ob0)
                else (geometry, ob0)
              (gb.1.move (Vec3.unit sec.kind.trans_ax (ali.2.1 + (shift : ℚ) * atom_shift)),
               gb.2)))

/-- Lines 394-411 of `build_section`: tile the cell `tiles = (L+1) // 2`
times along the longitudinal axis; when `cut_last = ((L+1) % 2 == 0)`
multiply `cell[0, 0]` by `L / (L+1)` — the source hardcodes row 0 here,
not `long_ax` — and remove the atoms beyond the longitudinal cell length
minus the 0.01 margin; finally set
`_open_borders[1] = _open_borders[0] != cut_last`.  Returns the built
geometry with the final pair of open-border flags. -/
def build_tile_part (sec : SectionCfg) (go : Geometry × Bool) : Geometry × Bool × Bool :=
  let long_ax := sec.kind.long_ax
  let tiles := (sec.L + 1) / 2
  let res := (sec.L + 1) % 2
  let cut_last := decide (res = 0)
  let g2 := go.1.tile tiles.toNat long_ax
  let g3 :=
    if cut_last then
      let g2' : Geometry := ⟨g2.cell.scaleAx 0 ((sec.L : ℚ) / ((sec.L : ℚ) + 1)), g2.xyz⟩
      g2'.removeFrom long_ax (g2'.cell.ax long_ax - 1 / 100)
    else g2
  (g3, go.2, go.2 != cut_last)

/-- `_nanoribbon_section.build_section` (lines 354-412): the placement
of one section relative to the (optional) previous one, returning the
placed geometry and the resulting `_open_borders` pair. -/
def build_section (sqrt3 : ℚ) (sec : SectionCfg) (geometry : Geometry)
    (ob0 : Bool) (prev : Option PrevPlaced) : Except String (Geometry × Bool × Bool) :=
  (build_prev_part sqrt3 sec geometry ob0 prev).map (build_tile_part sec)

/-- Lines 427-443 of `_nanoribbon_section.add_section`: fitting the
newly built section into the running composite.  If its minimum
transverse coordinate is negative, the composite cell is expanded by
`-min + 14` and both geometries are translated by that amount; then, if
the (pre-translation) maximum exceeds `geometry.cell[1, 1]` — the source
hardcodes indices `[1, 1]` in the condition while the expansion amount
uses `cell[trans_ax, trans_ax]` — the cell is expanded by
`max - cell[trans_ax, trans_ax] + 14`; finally the section is appended
along the longitudinal axis. -/
def add_section_combine (trans_ax long_ax : Nat) (geometry new_section : Geometry) : Geometry :=
  let new_min := listMin (new_section.xyz.map (fun p => p.ax trans_ax))
  let new_max := listMax (new_section.xyz.map (fun p => p.ax trans_ax))
  let st :=
    if new_min < 0 then
      let cell_offset := -new_min + 14
      ((geometry.add_vacuum cell_offset trans_ax).move (Vec3.unit trans_ax cell_offset),
       new_section.move (Vec3.unit trans_ax cell_offset))
    else (geometry, new_section)
  let g2 :=
    if new_max > st.1.cell.ax 1 then
      st.1.add_vacuum (new_max - st.1.cell.ax trans_ax + 14) trans_ax
    else st.1
  g2.append st.2 long_ax

/-!  Helper lemmas. -/

/-- The `auto` request resolves to the case split stated by the spec:
center when both widths are odd, else the open edge of an even previous
section, else bottom. -/
theorem resolve_auto_characterization (W pW : Int) (o : Bool) :
    resolve_auto Align.auto W pW o =
      (if W % 2 = 1 ∧ pW % 2 = 1 then Align.center
       else if pW % 2 = 0 then (if o then Align.top else Align.bottom)
       else Align.bottom) := by
  unfold resolve_auto
  split_ifs <;> first | rfl | omega | simp_all

/-- Center alignment between widths of different parity always yields
the fatal parity error. -/
theorem align_check_center_err (W : Int) (p : PrevPlaced) (gxyz : List Vec3) (tax : Nat)
    (h : (W - p.W) % 2 = 1) :
    align_check W Align.center (some p) gxyz tax
      = Except.error (junction_msg center_parity_msg) := by
  simp only [align_check]
  have hc : resolve_auto Align.center W p.W p.open_top = Align.center := rfl
  simp only [hc]
  rw [if_pos h]

/-- `minAbs` bounds every element's absolute value from below. -/
theorem minAbs_le (l : List Int) : ∀ j < l.length, minAbs l ≤ (l.getD j 0).natAbs := by
  induction l with
  | nil => intro j hj; simp at hj
  | cons a t ih =>
    intro j hj
    cases t with
    | nil =>
      simp only [List.length_cons, List.length_nil] at hj
      have hj0 : j = 0 := by omega
      subst hj0
      simp [minAbs]
    | cons b t' =>
      cases j with
      | zero =>
        simp only [List.getD_cons_zero, minAbs]
        exact min_le_left _ _
      | succ j' =>
        simp only [List.getD_cons_succ, minAbs]
        exact le_trans (min_le_right _ _) (ih j' (by simpa using hj))

/-- `argminAbs` is a valid index of a nonempty list. -/
theorem argminAbs_lt (l : List Int) (h : l ≠ []) : argminAbs l < l.length := by
  induction l with
  | nil => exact absurd rfl h
  | cons a t ih =>
    cases t with
    | nil => simp [argminAbs]
    | cons b t' =>
      simp only [argminAbs]
      split_ifs
      · simp
      · have := ih (by simp)
        simpa using Nat.succ_lt_succ this

/-- The element at `argminAbs` attains the minimal absolute value. -/
theorem argminAbs_val (l : List Int) (h : l ≠ []) :
    (l.getD (argminAbs l) 0).natAbs = minAbs l := by
  induction l with
  | nil => exact absurd rfl h
  | cons a t ih =>
    cases t with
    | nil => simp [argminAbs, minAbs]
    | cons b t' =>
      simp only [argminAbs, minAbs]
      split_ifs with ha
      · simp only [List.getD_cons_zero]
        exact (min_eq_left ha).symm
      · simp only [List.getD_cons_succ]
        rw [ih (by simp)]
        exact (min_eq_right (le_of_lt (lt_of_not_le ha))).symm

/-- `argminAbs` is the first index attaining the minimum: everything
before it has a strictly larger absolute value. -/
theorem argminAbs_first (l : List Int) :
    ∀ j < argminAbs l, minAbs l < (l.getD j 0).natAbs := by
  induction l with
  | nil => intro j hj; simp [argminAbs] at hj
  | cons a t ih =>
    intro j hj
    cases t with
    | nil => simp [argminAbs] at hj
    | cons b t' =>
      simp only [argminAbs] at hj
      split_ifs at hj with ha
      · simp at hj
      · cases j with
        | zero =>
          simp only [List.getD_cons_zero, minAbs]
          exact lt_of_le_of_lt (min_le_right _ _) (lt_of_not_le ha)
        | succ j' =>
          simp only [List.getD_cons_succ, minAbs]
          exact lt_of_le_of_lt (min_le_right _ _) (ih j' (by omega))

/-- `getD` on the reversed list at the mirrored index. -/
theorem getD_reverse_index (l : List Int) (j : Nat) (h : j < l.length) :
    l.reverse.getD (l.length - 1 - j) 0 = l.getD j 0 := by
  rw [List.getD_eq_getElem _ _ (by simp; omega), List.getD_eq_getElem _ _ h,
    List.getElem_reverse]
  congr 1
  omega

/-- In a sorted list, `getD` is monotone in the index. -/
theorem sorted_getD_mono (l : List Int) (hs : List.Sorted (· ≤ ·) l)
    (i j : Nat) (hij : i ≤ j) (hj : j < l.length) :
    l.getD i 0 ≤ l.getD j 0 := by
  rcases Nat.lt_or_ge i j with hlt | hge
  · rw [List.getD_eq_getElem _ _ (lt_of_le_of_lt hij hj), List.getD_eq_getElem _ _ hj]
    exact List.pairwise_iff_getElem.mp hs i j (lt_of_le_of_lt hij hj) hj hlt
  · have : i = j := le_antisymm hij hge
    subst this
    exact le_refl _

/-- The anchor is a valid index of a nonempty valid-shift list. -/
theorem quantized_anchor_lt (valid : List Int) (hne : valid ≠ []) :
    quantized_anchor valid < valid.length := by
  unfold quantized_anchor
  split_ifs with h0
  · exact List.indexOf_lt_length.mpr h0
  · have hlen : 0 < valid.length := List.length_pos.mpr hne
    omega

/-- With a literal 0 among the valid shifts, the anchor points at it. -/
theorem quantized_anchor_zero (valid : List Int) (h0 : (0 : Int) ∈ valid) :
    valid.getD (quantized_anchor valid) 0 = 0 := by
  unfold quantized_anchor
  rw [if_pos h0]
  have hlt := List.indexOf_lt_length.mpr h0
  rw [List.getD_eq_getElem _ _ hlt]
  exact List.getElem_indexOf hlt

/-- Without a literal 0, the anchor minimises the absolute value. -/
theorem quantized_anchor_min (valid : List Int) (hne : valid ≠ []) (h0 : (0 : Int) ∉ valid) :
    ∀ j < valid.length,
      (valid.getD (quantized_anchor valid) 0).natAbs ≤ (valid.getD j 0).natAbs := by
  intro j hj
  have hrevne : valid.reverse ≠ [] := by simpa using hne
  have hrlen : valid.reverse.length = valid.length := List.length_reverse valid
  have hr := argminAbs_lt valid.reverse hrevne
  have hanchor : quantized_anchor valid = valid.length - 1 - argminAbs valid.reverse := by
    unfold quantized_anchor
    rw [if_neg h0]
  have hval : (valid.getD (quantized_anchor valid) 0).natAbs = minAbs valid.reverse := by
    rw [hanchor]
    rw [← getD_reverse_index valid (valid.length - 1 - argminAbs valid.reverse) (by omega)]
    have : valid.length - 1 - (valid.length - 1 - argminAbs valid.reverse)
        = argminAbs valid.reverse := by omega
    rw [this]
    exact argminAbs_val valid.reverse hrevne
  rw [hval]
  rw [← getD_reverse_index valid j hj]
  exact minAbs_le valid.reverse _ (by omega)

/-- Without a literal 0, a tie in absolute value is broken toward the
anchor's (positive, upward) value: in the sorted list every element of
the same absolute value is at most the anchored one. -/
theorem quantized_anchor_tie (valid : List Int) (hs : List.Sorted (· ≤ ·) valid)
    (hne : valid ≠ []) (h0 : (0 : Int) ∉ valid) :
    ∀ j < valid.length,
      (valid.getD j 0).natAbs = (valid.getD (quantized_anchor valid) 0).natAbs →
        valid.getD j 0 ≤ valid.getD (quantized_anchor valid) 0 := by
  intro j hj heqabs
  have hrevne : valid.reverse ≠ [] := by simpa using hne
  have hrlen : valid.reverse.length = valid.length := List.length_reverse valid
  have hr := argminAbs_lt valid.reverse hrevne
  have hanchor : quantized_anchor valid = valid.length - 1 - argminAbs valid.reverse := by
    unfold quantized_anchor
    rw [if_neg h0]
  have hval : (valid.getD (quantized_anchor valid) 0).natAbs = minAbs valid.reverse := by
    rw [hanchor]
    rw [← getD_reverse_index valid (valid.length - 1 - argminAbs valid.reverse) (by omega)]
    have : valid.length - 1 - (valid.length - 1 - argminAbs valid.reverse)
        = argminAbs valid.reverse := by omega
    rw [this]
    exact argminAbs_val valid.reverse hrevne
  have hjle : j ≤ quantized_anchor valid := by
    by_contra hcon
    push_neg at hcon
    have hidx : valid.length - 1 - j < argminAbs valid.reverse := by omega
    have := argminAbs_first valid.reverse (valid.length - 1 - j) hidx
    rw [getD_reverse_index valid j hj] at this
    omega
  exact sorted_getD_mono valid hs j (quantized_anchor valid) hjle (quantized_anchor_lt valid hne)

/-- An in-range quantized index resolves to the valid-set element at
`anchor + shift` without warnings. -/
theorem quantized_resolve_in_range (valid : List Int) (s : Int) (hne : valid ≠ [])
    (hin : 0 ≤ (quantized_anchor valid : Int) + s
      ∧ (quantized_anchor valid : Int) + s < (valid.length : Int)) :
    quantized_resolve Policy.raise valid s
      = Except.ok ([], valid.getD ((quantized_anchor valid : Int) + s).toNat 0) := by
  simp only [quantized_resolve]
  rw [if_neg hne]
  rw [if_neg (show ¬ ((quantized_anchor valid : Int) + s < 0
      ∨ (valid.length : Int) ≤ (quantized_anchor valid : Int) + s) by omega)]
  unfold npIndex
  rw [if_pos ⟨hin.1, hin.2⟩]
  rfl

/-- An out-of-range quantized index fails fatally with the range
message. -/
theorem quantized_resolve_out_of_range (valid : List Int) (s : Int) (hne : valid ≠ [])
    (hout : (quantized_anchor valid : Int) + s < 0
      ∨ (valid.length : Int) ≤ (quantized_anchor valid : Int) + s) :
    quantized_resolve Policy.raise valid s
      = Except.error (junction_msg (shift_range_msg (quantized_anchor valid) valid.length s)) := by
  simp only [quantized_resolve]
  rw [if_neg hne, if_pos hout]
  rfl

/-!  The claims. -/

/-- Claim C1 (confirmed).  For consecutive sections of equal odd widths
and a non-`ignore` policy, the valid-shift set is exactly `[0]`; in
non-quantized mode a requested shift of 0 is returned unchanged, and any
other shift is routed through the `on_lone_atom` policy as a lone-atom
error whose message lists the valid set (a warning proceeds with the
requested shift, `raise` aborts). -/
theorem equal_odd_width_valid_shift_zero (prevW W s : Int) (pol : Policy) (o : Bool)
    (al : Align) (heq : prevW = W) (hodd : W % 2 = 1) (hpol : pol ≠ Policy.ignore) :
    sorted_valid_shifts prevW o W al = [0]
    ∧ parse_shift pol false s prevW o W al =
        (if s = 0 then Except.ok ([], 0)
         else match pol with
           | Policy.warn => Except.ok ([junction_msg (shift_set_msg [0] s)], s)
           | _ => Except.error (junction_msg (shift_set_msg [0] s))) := by
  subst heq
  have hv : sorted_valid_shifts prevW o prevW al = [0] := by
    simp only [sorted_valid_shifts]
    rw [if_pos ⟨show (prevW - prevW) % 4 % 2 = 0 by omega, hodd⟩, if_neg (lt_irrefl prevW)]
    simp [sortInts, insertSorted]
  refine ⟨hv, ?_⟩
  unfold parse_shift
  rw [if_neg hpol]
  rw [if_neg (show ¬ (prevW % 2 = 1 ∧ prevW < prevW ∧ o = true) from
    fun hcon => lt_irrefl prevW hcon.2.1)]
  simp only [hv]
  unfold plain_resolve
  by_cases hs : s = 0
  · subst hs
    rw [if_pos (List.mem_singleton.mpr rfl), if_pos rfl]
    rfl
  · rw [if_neg (fun hmem => hs (List.mem_singleton.mp hmem)), if_neg hs]
    cases pol with
    | ignore => exact absurd rfl hpol
    | warn => rfl
    | raise => rfl

/-- Witness for C1: widths 7 and 7, requested shift 1 under `raise`. -/
theorem equal_odd_width_valid_shift_zero_witness :
    ((7 : Int) = 7 ∧ (7 : Int) % 2 = 1 ∧ Policy.raise ≠ Policy.ignore)
    ∧ (sorted_valid_shifts 7 false 7 Align.bottom = [0]
      ∧ parse_shift Policy.raise false 1 7 false 7 Align.bottom =
          (if (1 : Int) = 0 then Except.ok ([], (0 : Int))
           else match Policy.raise with
             | Policy.warn => Except.ok ([junction_msg (shift_set_msg [0] 1)], (1 : Int))
             | _ => Except.error (junction_msg (shift_set_msg [0] 1)))) :=
  ⟨⟨rfl, by decide, by decide⟩,
   equal_odd_width_valid_shift_zero 7 7 1 Policy.raise false Align.bottom rfl
     (by decide) (by decide)⟩

/-- Claim C2 (confirmed).  Whenever `build_section` returns, the top
open-border flag equals the bottom flag XOR `cut_last`, where
`cut_last = ((L + 1) % 2 == 0)` — for first and subsequent sections
alike. -/
theorem build_section_open_border_xor (sqrt3 : ℚ) (sec : SectionCfg) (g : Geometry)
    (ob0 : Bool) (prev : Option PrevPlaced) (res : Geometry × Bool × Bool)
    (h : build_section sqrt3 sec g ob0 prev = Except.ok res) :
    res.2.2 = (res.2.1 != decide ((sec.L + 1) % 2 = 0)) := by
  unfold build_section at h
  cases hb : build_prev_part sqrt3 sec g ob0 prev with
  | error e =>
    rw [hb] at h
    exact absurd h (by simp [Except.map])
  | ok go =>
    rw [hb] at h
    simp only [Except.map] at h
    cases h
    rfl

/-- Witness for C2: a first armchair section of width 7 and length 2
built from a one-atom cell. -/
theorem build_section_open_border_xor_witness :
    build_section 0 ⟨7, 2, 0, Align.bottom, 1, Kind.armchair, false, Policy.ignore, false⟩
        ⟨⟨3, 4, 1⟩, [⟨0, 0, 0⟩]⟩ false none
      = Except.ok ((⟨⟨3, 4, 1⟩, [⟨0, 0, 0⟩]⟩ : Geometry), false, false)
    ∧ (false : Bool) = ((false : Bool) != decide (((2 : Int) + 1) % 2 = 0)) := by
  have h : build_section 0 ⟨7, 2, 0, Align.bottom, 1, Kind.armchair, false, Policy.ignore, false⟩
      ⟨⟨3, 4, 1⟩, [⟨0, 0, 0⟩]⟩ false none
      = Except.ok ((⟨⟨3, 4, 1⟩, [⟨0, 0, 0⟩]⟩ : Geometry), false, false) := by
    simp [build_section, build_prev_part, build_tile_part, Geometry.tile,
          Vec3.scaleAx, Vec3.addAx, Vec3.ax, Kind.long_ax, Except.map,
          List.range_succ, List.range_zero, List.flatMap_cons, List.flatMap_nil]
  exact ⟨h, build_section_open_border_xor 0
    ⟨7, 2, 0, Align.bottom, 1, Kind.armchair, false, Policy.ignore, false⟩
    ⟨⟨3, 4, 1⟩, [⟨0, 0, 0⟩]⟩ false none
    ((⟨⟨3, 4, 1⟩, [⟨0, 0, 0⟩]⟩ : Geometry), false, false) h⟩

/-- Claim C3 (code bug).  Evaluating the trimming step of
`build_section` on a zigzag section (`long_ax = 1`) with `L = 1` and
unit cell `diag(3, 4, 1)`: the claim (and the evident intent — the
removal on line 405 uses `long_ax`) says the longitudinal cell entry 4
should shrink to `4 * L/(L+1) = 2` with the trailing atoms removed, but
the source's line 403 hardcodes `cell[0, 0]`, so the transverse entry 3
becomes 3/2, the longitudinal entry stays 4, and the removal threshold
`4 - 0.01` cuts nothing.  For armchair sections (`long_ax = 0`) the two
coincide and the claim's behaviour holds. -/
theorem build_section_cut_axis_zigzag_eval :
    build_section 0 ⟨5, 1, 0, Align.bottom, 1, Kind.zigzag, false, Policy.ignore, false⟩
        ⟨⟨3, 4, 1⟩, [⟨1, 1, 0⟩]⟩ false none
      = Except.ok ((⟨⟨3/2, 4, 1⟩, [⟨1, 1, 0⟩]⟩ : Geometry), false, true) := by
  simp [build_section, build_prev_part, build_tile_part, Geometry.tile, Geometry.removeFrom,
        Vec3.scaleAx, Vec3.addAx, Vec3.ax, Kind.long_ax, Except.map, List.filter]
  norm_num

/-- Counterexample for C4.  Under the `warn` policy the wider-open-odd
pre-check is still fatal (the source hardcodes `"raise"` severity on
line 455), refuting the claim that `warn` yields a non-fatal warning
that proceeds. -/
theorem wider_open_warn_fatal_cex :
    parse_shift Policy.warn false 0 5 true 3 Align.bottom
      = Except.error (junction_msg wider_open_msg) := rfl

/-- Claim C4 (corrected).  When the previous section is odd, strictly
wider and open on top, shift resolution is suppressed entirely under
`ignore` (the requested shift is returned unvalidated by the early
return of line 446), but under every other policy the lone-atom error
is fatal, because `_parse_shift` hardcodes the `"raise"` severity —
`warn` does not downgrade it. -/
theorem wider_open_precheck_severity (pol : Policy) (q : Bool) (s prevW W : Int)
    (al : Align) (hodd : prevW % 2 = 1) (hlt : W < prevW) :
    (parse_shift Policy.ignore q s prevW true W al = Except.ok ([], s))
    ∧ (pol ≠ Policy.ignore →
        parse_shift pol q s prevW true W al = Except.error (junction_msg wider_open_msg)) := by
  refine ⟨rfl, fun hp => ?_⟩
  unfold parse_shift
  rw [if_neg hp, if_pos ⟨hodd, hlt, rfl⟩]

/-- Witness for C4: previous width 5 (odd, open), incoming width 3,
policy `warn`. -/
theorem wider_open_precheck_severity_witness :
    ((5 : Int) % 2 = 1 ∧ (3 : Int) < 5)
    ∧ ((parse_shift Policy.ignore false 2 5 true 3 Align.bottom = Except.ok ([], 2))
      ∧ (Policy.warn ≠ Policy.ignore →
          parse_shift Policy.warn false 2 5 true 3 Align.bottom
            = Except.error (junction_msg wider_open_msg))) :=
  ⟨⟨by decide, by decide⟩,
   wider_open_precheck_severity Policy.warn false 2 5 3 Align.bottom (by decide) (by decide)⟩

/-- Claim C5 (confirmed).  In quantized mode: (1) `__post_init__`
overwrites `on_lone_atom` with `raise` regardless of the configured
policy; (2) over any sorted nonempty valid-shift list, the anchor is the
position of the literal shift 0 when present, and otherwise a position
of minimal absolute value whose element dominates every tied element
(the tie goes to the positive, upward shift); (3) an in-range request
resolves to the valid-set element at index `anchor + shift`, and an
out-of-range request fails fatally with the message reporting the valid
index range. -/
theorem shift_quantum_anchor_resolution (pol : Policy) (valid : List Int) (s : Int)
    (hne : valid ≠ []) (hsort : List.Sorted (· ≤ ·) valid) :
    ((post_init "armchair" true pol).map (fun st => st.2.1) = Except.ok Policy.raise)
    ∧ ((0 : Int) ∈ valid → valid.getD (quantized_anchor valid) 0 = 0)
    ∧ ((0 : Int) ∉ valid →
        (∀ j < valid.length,
          (valid.getD (quantized_anchor valid) 0).natAbs ≤ (valid.getD j 0).natAbs)
        ∧ (∀ j < valid.length,
            (valid.getD j 0).natAbs = (valid.getD (quantized_anchor valid) 0).natAbs →
              valid.getD j 0 ≤ valid.getD (quantized_anchor valid) 0))
    ∧ (0 ≤ (quantized_anchor valid : Int) + s
        ∧ (quantized_anchor valid : Int) + s < (valid.length : Int) →
        quantized_resolve Policy.raise valid s
          = Except.ok ([], valid.getD ((quantized_anchor valid : Int) + s).toNat 0))
    ∧ (((quantized_anchor valid : Int) + s < 0
        ∨ (valid.length : Int) ≤ (quantized_anchor valid : Int) + s) →
        quantized_resolve Policy.raise valid s
          = Except.error (junction_msg (shift_range_msg (quantized_anchor valid) valid.length s))) := by
  refine ⟨rfl, quantized_anchor_zero valid, ?_, ?_, ?_⟩
  · intro h0
    exact ⟨quantized_anchor_min valid hne h0, quantized_anchor_tie valid hsort hne h0⟩
  · intro hin
    exact quantized_resolve_in_range valid s hne hin
  · intro hout
    exact quantized_resolve_out_of_range valid s hne hout

/-- Witness for C5: the sorted valid-shift list `[-2, 1, 3]` with
requested index shift 0, configured policy `warn`. -/
theorem shift_quantum_anchor_resolution_witness :
    (([-2, 1, 3] : List Int) ≠ [] ∧ List.Sorted (· ≤ ·) ([-2, 1, 3] : List Int))
    ∧ (((post_init "armchair" true Policy.warn).map (fun st => st.2.1)
          = Except.ok Policy.raise)
      ∧ ((0 : Int) ∈ ([-2, 1, 3] : List Int) →
          ([-2, 1, 3] : List Int).getD (quantized_anchor [-2, 1, 3]) 0 = 0)
      ∧ ((0 : Int) ∉ ([-2, 1, 3] : List Int) →
          (∀ j < ([-2, 1, 3] : List Int).length,
            (([-2, 1, 3] : List Int).getD (quantized_anchor [-2, 1, 3]) 0).natAbs
              ≤ (([-2, 1, 3] : List Int).getD j 0).natAbs)
          ∧ (∀ j < ([-2, 1, 3] : List Int).length,
              (([-2, 1, 3] : List Int).getD j 0).natAbs
                  = (([-2, 1, 3] : List Int).getD (quantized_anchor [-2, 1, 3]) 0).natAbs →
                ([-2, 1, 3] : List Int).getD j 0
                  ≤ ([-2, 1, 3] : List Int).getD (quantized_anchor [-2, 1, 3]) 0))
      ∧ (0 ≤ (quantized_anchor [-2, 1, 3] : Int) + 0
          ∧ (quantized_anchor [-2, 1, 3] : Int) + 0 < (([-2, 1, 3] : List Int).length : Int) →
          quantized_resolve Policy.raise [-2, 1, 3] 0
            = Except.ok ([], ([-2, 1, 3] : List Int).getD
                ((quantized_anchor [-2, 1, 3] : Int) + 0).toNat 0))
      ∧ (((quantized_anchor [-2, 1, 3] : Int) + 0 < 0
          ∨ (([-2, 1, 3] : List Int).length : Int) ≤ (quantized_anchor [-2, 1, 3] : Int) + 0) →
          quantized_resolve Policy.raise [-2, 1, 3] 0
            = Except.error (junction_msg
                (shift_range_msg (quantized_anchor [-2, 1, 3]) ([-2, 1, 3] : List Int).length 0)))) :=
  ⟨⟨by decide, by decide⟩,
   shift_quantum_anchor_resolution Policy.warn [-2, 1, 3] 0 (by decide) (by decide)⟩

/-- Claim C6 (confirmed).  With a previous section present, the `auto`
alignment mode resolves deterministically: center when both widths are
odd (equivalently incoming odd with even difference), else the previous
section's open edge when its width is even (top iff its top border is
open), else bottom.  In particular two odd widths always resolve to
center. -/
theorem auto_align_resolution (W : Int) (p : PrevPlaced) (gxyz : List Vec3) (tax : Nat) :
    (align_check W Align.auto (some p) gxyz tax).map (fun r => r.1) =
      Except.ok (if W % 2 = 1 ∧ p.W % 2 = 1 then Align.center
                 else if p.W % 2 = 0 then (if p.open_top then Align.top else Align.bottom)
                 else Align.bottom) := by
  rw [← resolve_auto_characterization W p.W p.open_top]
  simp only [align_check]
  by_cases h1 : W % 2 = 1 ∧ (W - p.W) % 2 = 0
  · have hc : resolve_auto Align.auto W p.W p.open_top = Align.center := by
      unfold resolve_auto
      rw [if_pos rfl, if_pos h1]
    simp only [hc]
    rw [if_neg (by omega : ¬ (W - p.W) % 2 = 1)]
    rfl
  · have hnc : resolve_auto Align.auto W p.W p.open_top =
        (if p.W % 2 = 0 then (if p.open_top then Align.top else Align.bottom)
         else Align.bottom) := by
      unfold resolve_auto
      rw [if_pos rfl, if_neg h1]
    by_cases h2 : p.W % 2 = 0
    · by_cases h3 : p.open_top
      · rw [hnc, if_pos h2, if_pos h3]
        rfl
      · rw [hnc, if_pos h2, if_neg h3]
        rfl
    · rw [hnc, if_neg h2]
      rfl

/-- Claim C7 (confirmed).  Center alignment between widths differing by
an odd amount fails fatally: `_align_check` returns the parity error (it
never consults `on_lone_atom` — the severity is hardcoded `"raise"`), no
offset is produced, and the whole `build_section` aborts with that
error. -/
theorem center_align_parity_fatal (sqrt3 : ℚ) (sec : SectionCfg) (g : Geometry)
    (ob0 : Bool) (p : PrevPlaced) (hal : sec.align = Align.center)
    (hk : sec.kind = p.kind) (hb : sec.bond = p.bond)
    (hpar : (sec.W - p.W) % 2 = 1) :
    align_check sec.W sec.align (some p) g.xyz sec.kind.trans_ax
        = Except.error (junction_msg center_parity_msg)
    ∧ build_section sqrt3 sec g ob0 (some p)
        = Except.error (junction_msg center_parity_msg) := by
  have hac := align_check_center_err sec.W p g.xyz sec.kind.trans_ax hpar
  refine ⟨by rw [hal]; exact hac, ?_⟩
  simp only [build_section, build_prev_part]
  rw [if_neg (fun hcon => hcon hk), if_neg (fun hcon => hcon hb), hal, hac]
  rfl

/-- Witness for C7: widths 8 over 7 with center alignment and the
`warn` policy (the policy cannot downgrade this error). -/
theorem center_align_parity_fatal_witness :
    ((Align.center : Align) = Align.center ∧ (Kind.armchair : Kind) = Kind.armchair
      ∧ (1 : ℚ) = 1 ∧ ((8 : Int) - 7) % 2 = 1)
    ∧ (align_check 8 Align.center (some ⟨7, Kind.armchair, 1, false, [⟨0, 1, 0⟩]⟩)
          [⟨0, 2, 0⟩] 1
        = Except.error (junction_msg center_parity_msg)
      ∧ build_section 0 ⟨8, 1, 0, Align.center, 1, Kind.armchair, false, Policy.warn, false⟩
          ⟨⟨3, 4, 1⟩, [⟨0, 2, 0⟩]⟩ false (some ⟨7, Kind.armchair, 1, false, [⟨0, 1, 0⟩]⟩)
        = Except.error (junction_msg center_parity_msg)) :=
  ⟨⟨rfl, rfl, rfl, by decide⟩,
   center_align_parity_fatal 0
     ⟨8, 1, 0, Align.center, 1, Kind.armchair, false, Policy.warn, false⟩
     ⟨⟨3, 4, 1⟩, [⟨0, 2, 0⟩]⟩ false ⟨7, Kind.armchair, 1, false, [⟨0, 1, 0⟩]⟩
     rfl rfl rfl (by decide)⟩

/-- Counterexample for C8.  `nanoribbon` does not fail on width 0: the
integral width is clamped by `max(width, 1)` and the armchair branch
proceeds (with the characterization of width 1), refuting the claim that
width 0 raises an input error. -/
theorem nanoribbon_width_zero_no_error :
    nanoribbon (PyNum.int 0) "armchair" = Except.ok (1, 0, 1, "armchair") := rfl

/-- Claim C8 (corrected).  The width validation of `nanoribbon` is a
type test only: every `Integral` width — including 0 and negatives — is
accepted and clamped to `max(width, 1)`, while every non-`Integral`
width (any float) fails with the input error. -/
theorem nanoribbon_width_validation (wi : Int) (q : ℚ) (k : String)
    (hk : pyLower k = "armchair") :
    nanoribbon (PyNum.int wi) k
        = Except.ok (max wi 1, max wi 1 / 2, max wi 1 % 2, "armchair")
    ∧ nanoribbon (PyNum.float q) k = Except.error nanoribbon_width_err := by
  constructor
  · unfold nanoribbon
    rw [hk]
    rfl
  · rfl

/-- Witness for C8: the case-variant kind "Armchair" with width 0 and a
float width 1/2. -/
theorem nanoribbon_width_validation_witness :
    pyLower "Armchair" = "armchair"
    ∧ (nanoribbon (PyNum.int 0) "Armchair"
        = Except.ok (max 0 1, max 0 1 / 2, max 0 1 % 2, "armchair")
      ∧ nanoribbon (PyNum.float (1/2)) "Armchair" = Except.error nanoribbon_width_err) :=
  ⟨by decide, nanoribbon_width_validation 0 (1/2) "Armchair" (by decide)⟩

/-- Claim C9 (code bug).  Evaluating the composite-fitting step of
`add_section` on a zigzag junction (`trans_ax = 0`): the new section's
transverse maximum 6 exceeds the composite's transverse cell length 5,
so by the claim (and the expansion amount on line 438, which uses
`cell[trans_ax, trans_ax]`) the transverse cell should grow by
`6 - 5 + 14`; but the condition on line 437 hardcodes
`geometry.cell[1, 1] = 7`, which 6 does not exceed, so no expansion
happens and the section is appended with the transverse cell still 5.
For armchair sections (`trans_ax = 1`) condition and amount agree and
the claim's behaviour holds. -/
theorem add_section_zigzag_transverse_eval :
    add_section_combine 0 1 ⟨⟨5, 7, 1⟩, [⟨1, 1, 0⟩]⟩ ⟨⟨5, 2, 1⟩, [⟨6, 1, 0⟩]⟩
      = ⟨⟨5, 9, 1⟩, [⟨1, 1, 0⟩, ⟨6, 8, 0⟩]⟩ := by
  simp [add_section_combine, listMin, listMax, Geometry.append, Geometry.add_vacuum,
        Geometry.move, Vec3.addAx, Vec3.ax, Vec3.unit, Vec3.add]
  norm_num

/-- Claim C10 (confirmed).  For every kind string other than exactly
"armchair" or "zigzag" — e.g. the case variant "Armchair" that
`nanoribbon` itself accepts after lower-casing — `__post_init__` raises,
but the exception is the `NameError` produced by the undefined bare name
`kind` inside the error f-string (the attribute is `self.kind`), not the
intended `ValueError`. -/
theorem unknown_kind_raises_name_error (k : String) (q : Bool) (pol : Policy)
    (h1 : k ≠ "armchair") (h2 : k ≠ "zigzag") :
    post_init k q pol = Except.error (PyErr.nameError "kind") := by
  unfold post_init
  rw [if_neg h1, if_neg h2]
  exact congrArg Except.error (by decide)

/-- Witness for C10: the kind string "Armchair". -/
theorem unknown_kind_raises_name_error_witness :
    (("Armchair" : String) ≠ "armchair" ∧ ("Armchair" : String) ≠ "zigzag")
    ∧ post_init "Armchair" false Policy.warn = Except.error (PyErr.nameError "kind") :=
  ⟨⟨by decide, by decide⟩,
   unknown_kind_raises_name_error "Armchair" false Policy.warn (by decide) (by decide)⟩
